import Mathlib

/-!
# Shallow embedding of the PakGPT News Engine backend

This file embeds the request handlers and helper functions of `main.py`
(the PakGPT News Engine FastAPI backend) as executable Lean definitions and
proves properties of the feed-normalization, digest-composition, ingestion
and classification logic.

Modelling conventions:
* Python dictionaries holding news documents become the `Doc` structure,
  with `Option` fields for keys that may be absent (`none` = key absent).
* Python string truthiness (`x or d`) is `pyOr`; `str(None)` is `pyStr`.
* `s[:n]` character slicing is `String.take`.
* `x in s` substring tests are `strIn` (character-level infix test);
  `.lower()` is `lowerStr` (ASCII lowering, as titles here are ASCII).
* The external document store is a function parameter: `create` for
  `create_document` (may fail with an error string) and the query result
  is passed in as an `Except String (List Doc)` for `get_documents`.
* Raising `HTTPException` is modelled as `Except HTTPException`.
* An uncaught Python `TypeError` (slicing `None`) makes the digest handler
  return `none` (`Option` result).
* `datetime.utcnow().isoformat()` is an arbitrary `now : String` parameter.
-/

set_option maxRecDepth 8000

/-- Python `o or d` for an optional string: `None` and `""` are falsy. -/
def pyOr (o : Option String) (d : String) : String :=
  match o with
  | none => d
  | some s => if s = "" then d else s

/-- Python `str(...)` applied to an optional string: `str(None)` is `"None"`. -/
def pyStr (o : Option String) : String :=
  match o with
  | none => "None"
  | some s => s

/-- Python `o or []` for an optional list (absent or empty become `[]`). -/
def pyOrList (o : Option (List String)) : List String :=
  match o with
  | none => []
  | some l => l

/-- Character-list infix test: does `n` occur contiguously inside the second list? -/
def listInfix : List Char → List Char → Bool
  | n, [] => n.isEmpty
  | n, c :: t => n.isPrefixOf (c :: t) || listInfix n t

/-- Python `needle in hay` substring membership on strings. -/
def strIn (needle hay : String) : Bool :=
  listInfix needle.toList hay.toList

/-- ASCII lowering of one character (Python `.lower()` restricted to ASCII). -/
def lowerChar (c : Char) : Char :=
  if 65 ≤ c.toNat ∧ c.toNat ≤ 90 then Char.ofNat (c.toNat + 32) else c

/-- ASCII lowering of a string. -/
def lowerStr (s : String) : String :=
  ⟨s.data.map lowerChar⟩

/-- Python `s.strip()`: drop whitespace from both ends. -/
def pyStrip (s : String) : String :=
  ⟨((s.data.dropWhile Char.isWhitespace).reverse.dropWhile Char.isWhitespace).reverse⟩

/-- A stored/raw news document (a Python dict); `none` marks an absent key. -/
structure Doc where
  _id : Option String := none
  title : Option String := none
  source : Option String := none
  url : Option String := none
  published_at : Option String := none
  city : Option String := none
  interests : List String := []
  bullets : Option (List String) := none
  impact : Option String := none
  fact_status : Option String := none
  risk_score : Option Nat := none
  language : Option String := none
  urgency : Option String := none

/-- Result of `ai_clean_and_summarize`. -/
structure Summary where
  bullets : List String
  impact : String

/-- Result of `ai_fact_check`. -/
structure FactCheck where
  fact_status : String
  risk_score : Nat
deriving DecidableEq

/-- Modelled `HTTPException(status_code, detail)`. -/
structure HTTPException where
  status_code : Nat
  detail : String
deriving DecidableEq

/-- `ai_clean_and_summarize` from `main.py`: deterministic 3-bullet summary
and 1-line impact. `title` falls back to `"Untitled"` when absent or empty
(Python `or`); the English source bullet uses `.get` with default
`"unknown"` (absent key only), the Urdu one uses `or` (absent or empty). -/
def ai_clean_and_summarize (article : Doc) (language : String) : Summary :=
  let title := pyOr article.title "Untitled"
  let bullets : List String := [
    "Key point: " ++ title.take 70,
    "Source: " ++ article.source.getD "unknown",
    "Time: " ++ article.published_at.getD "" ]
  let impact := "Potential impact on citizens and businesses to be monitored."
  if language = "ur" then
    { bullets := ([
        "اہم نقطہ: " ++ title.take 70,
        "سورس: " ++ pyOr article.source "نامعلوم",
        "وقت: " ++ (let s := pyStr article.published_at; if s = "" then "" else s)
      ] : List String).take 3,
      impact := "شہریوں اور کاروبار پر ممکنہ اثرات کے لئے نظر رکھیں۔" }
  else
    { bullets := bullets.take 3, impact := impact }

/-- `ai_fact_check` from `main.py`: keyword heuristics on the lower-cased title. -/
def ai_fact_check (article : Doc) : FactCheck :=
  let title := lowerStr (pyOr article.title "")
  if (["breaking", "official", "gov"].any fun x => strIn x title) then
    { fact_status := "Verified", risk_score := 5 }
  else if (["rumour", "leak", "unconfirmed"].any fun x => strIn x title) then
    { fact_status := "Rumour", risk_score := 65 }
  else
    { fact_status := "Unconfirmed", risk_score := 30 }

/-- First canned article of the fixed ingestion batch. -/
def sample_article_1 (now : String) : Doc :=
  { source := some "Dawn",
    title := some "Breaking: Govt announces new economic policy",
    url := some "https://www.dawn.com/sample1",
    published_at := some now,
    city := some "Islamabad",
    interests := ["economy", "politics"] }

/-- Second canned article of the fixed ingestion batch. -/
def sample_article_2 (now : String) : Doc :=
  { source := some "Geo",
    title := some "PSL updates: Lahore Qalandars clinch close match",
    url := some "https://www.geo.tv/sample2",
    published_at := some now,
    city := some "Lahore",
    interests := ["sports"] }

/-- Third canned article of the fixed ingestion batch. -/
def sample_article_3 (now : String) : Doc :=
  { source := some "Express",
    title := some "Technology jobs rising in Karachi\x27s startup ecosystem",
    url := some "https://www.express.pk/sample3",
    published_at := some now,
    city := some "Karachi",
    interests := ["tech", "jobs"] }

/-- The fixed 3-article batch used by `/api/ingest` regardless of input. -/
def sample_articles (now : String) : List Doc :=
  [sample_article_1 now, sample_article_2 now, sample_article_3 now]

/-- Document composition inside the ingest loop:
`{**art, **summary, **check, "language": ..., "urgency": "important"}`.
The summary dict only carries `bullets`/`impact` and the check dict only
`fact_status`/`risk_score`, so all other article keys survive the merge. -/
def composeDoc (art : Doc) (language : String) : Doc :=
  let summary := ai_clean_and_summarize art language
  let check := ai_fact_check art
  { art with
    bullets := some summary.bullets,
    impact := some summary.impact,
    fact_status := some check.fact_status,
    risk_score := some check.risk_score,
    language := some language,
    urgency := some "important" }

/-- The ingest loop: compose each article, persist it via `create` (call
index, document), abort with a 500 `HTTPException` on the first failure.
Also returns the list of documents actually persisted (the store delta). -/
def ingestLoop (create : Nat → Doc → Except String String) (language : String) :
    List Doc → Nat → List String → List Doc →
    Except HTTPException (Nat × List String) × List Doc
  | [], _, ids, store => (Except.ok (ids.length, ids), store)
  | art :: rest, k, ids, store =>
    let doc := composeDoc art language
    match create k doc with
    | Except.ok i => ingestLoop create language rest (k + 1) (ids ++ [i]) (store ++ [doc])
    | Except.error e =>
        (Except.error { status_code := 500, detail := "DB error: " ++ e }, store)

/-- `/api/ingest` handler (`ingest_news`): the `sources` payload field is
never read; the loop runs over the fixed canned batch. -/
def ingest_news (create : Nat → Doc → Except String String)
    (sources : List String) (language : String) (now : String) :
    Except HTTPException (Nat × List String) × List Doc :=
  ingestLoop create language (sample_articles now) 0 [] []

/-- Feed normalization of the bullets list: truncate above 3, pad with empty
strings below 3. -/
def ensureBullets3 (bs : List String) : List String :=
  if bs.length > 3 then bs.take 3
  else if bs.length < 3 then bs ++ List.replicate (3 - bs.length) ""
  else bs

/-- A feed item after normalization (`_id` replaced by a string `id`). -/
structure FeedItem where
  id : String
  title : Option String
  source : Option String
  url : Option String
  published_at : Option String
  city : Option String
  interests : List String
  bullets : List String
  impact : Option String
  fact_status : Option String
  risk_score : Option Nat
  language : Option String
  urgency : Option String

/-- Per-document feed normalization: `id = str(_id)`, `_id` dropped,
bullets forced to length 3, everything else carried over. -/
def normalizeFeedDoc (d : Doc) : FeedItem :=
  { id := pyStr d._id,
    title := d.title,
    source := d.source,
    url := d.url,
    published_at := d.published_at,
    city := d.city,
    interests := d.interests,
    bullets := ensureBullets3 (pyOrList d.bullets),
    impact := d.impact,
    fact_status := d.fact_status,
    risk_score := d.risk_score,
    language := d.language,
    urgency := d.urgency }

/-- `/api/feed` request payload (`PersonalizeRequest`). -/
structure PersonalizeRequest where
  city : Option String := none
  interests : List String := []
  urgency : String := "important"
  language : String := "en"

/-- The Mongo-style filter map built by `/api/feed` (absent key = `none`). -/
structure FeedQuery where
  city : Option String := none
  interests_in : Option (List String) := none
  urgency : Option String := none
  language : Option String := none

/-- Query construction in `get_personalized_feed`: each key is added only
when the corresponding payload field is truthy. -/
def buildFeedQuery (p : PersonalizeRequest) : FeedQuery :=
  { city := match p.city with
      | some c => if c = "" then none else some c
      | none => none,
    interests_in := if p.interests.isEmpty then none else some p.interests,
    urgency := if p.urgency = "" then none else some p.urgency,
    language := if p.language = "" then none else some p.language }

/-- `/api/feed` response. -/
structure FeedResponse where
  count : Nat
  items : List FeedItem

/-- `/api/feed` handler (`get_personalized_feed`): build the query, run it
against the store (a parameter returning up to 50 documents or an error),
normalize every document; a store failure becomes a 500 `HTTPException`. -/
def get_personalized_feed (store : FeedQuery → Except String (List Doc))
    (payload : PersonalizeRequest) : Except HTTPException FeedResponse :=
  match store (buildFeedQuery payload) with
  | Except.error e =>
      Except.error { status_code := 500, detail := "DB error: " ++ e }
  | Except.ok docs =>
    let normalized := docs.map normalizeFeedDoc
    Except.ok { count := normalized.length, items := normalized }

/-- `/api/audio` response. -/
structure AudioResponse where
  language : String
  audio_url : String
  note : String
deriving DecidableEq

/-- `/api/audio` handler (`text_to_audio`): the input text is only collapsed
(`\n` to space) into an unused local; the returned URL is a constant. -/
def text_to_audio (text : String) (language : String) : AudioResponse :=
  let _txt := text.replace "\n" " "
  { language := language,
    audio_url := "data:audio/wav;base64," ++ pyStrip "UGFrR1BULWF1ZGlvLXBsYWNlaG9sZGVy",
    note := "Demo placeholder. Integrate a real TTS provider in production." }

/-- A digest per-item payload. -/
structure DigestItem where
  title : Option String
  bullets : List String
  impact : Option String
  why_it_matters : Option String
  source : Option String
  published_at : Option String
  fact_status : String
  risk_score : Nat

/-- The per-item payload of `/api/digest` (no padding of bullets, only
truncation; `fact_status`/`risk_score` use `.get` defaults). -/
def digestItemOfDoc (d : Doc) : DigestItem :=
  { title := d.title,
    bullets := (pyOrList d.bullets).take 3,
    impact := d.impact,
    why_it_matters := d.impact,
    source := d.source,
    published_at := d.published_at,
    fact_status := d.fact_status.getD "Unconfirmed",
    risk_score := d.risk_score.getD 0 }

/-- The canned fallback titles of `/api/digest`. -/
def fallback_titles : List String :=
  ["Fiscal updates and market outlook",
   "Security and regional developments",
   "PSX morning momentum",
   "Monsoon/weather advisory",
   "Tech/startup funding news"]

/-- The 5 canned fallback documents substituted when the digest query fails
or returns nothing. -/
def fallbackDocs (now : String) : List Doc :=
  fallback_titles.map fun t =>
    { title := some t,
      source := some "PakGPT",
      published_at := some now,
      bullets := some ["Key developments summarized",
                       "Numbers and context simplified",
                       "What to watch today"],
      impact := some "Expect ripple effects for households and businesses.",
      fact_status := some "Unconfirmed",
      risk_score := some 20 }

/-- The fixed Urdu trailing sentence appended to the 60-second summary
(with its leading space, exactly as in the source). -/
def urduTrailer : String := " آج کے اہم نکات کا خلاصہ۔"

/-- The generator `(h[:60] for h in headlines)`: slice each headline to 60
characters, left to right; an absent (`None`) headline raises a `TypeError`,
modelled as `none` for the whole traversal. -/
def sliceTitles : List (Option String) → Option (List String)
  | [] => some []
  | h :: t =>
    match h with
    | none => none
    | some s =>
      match sliceTitles t with
      | none => none
      | some r => some (s.take 60 :: r)

/-- `/api/digest` response. -/
structure DigestResponse where
  headlines : List (Option String)
  summary_60s : String
  items : List DigestItem
  business_snapshot : String
  global_affecting_pk : List String

/-- The second half of the `/api/digest` handler, depending only on the
effective document list and the language: headline extraction, the
60-second summary and the per-item payloads. Slicing `h[:60]` on an
absent (`None`) title is a `TypeError` that escapes the handler: the whole
computation returns `none` in that case (via `sliceTitles`). -/
def digestFromDocs (docs : List Doc) (language : String) : Option DigestResponse :=
  let headlines := (docs.map Doc.title).take 10
  match sliceTitles headlines with
  | none => none
  | some hs =>
    some {
      headlines := headlines,
      summary_60s :=
        String.intercalate " " hs ++
          (if language = "en" then "" else urduTrailer),
      items := (docs.take 10).map digestItemOfDoc,
      business_snapshot := "FX, PSX, inflation, fuel updates at a glance.",
      global_affecting_pk :=
        ["Oil prices and regional markets",
         "US/China moves impacting trade"] }

/-- `/api/digest` handler (`morning_digest`). The try/except around the
store query turns any query error into an empty document list; an empty
list triggers the canned fallback. -/
def morning_digest (queryResult : Except String (List Doc))
    (language : String) (now : String) : Option DigestResponse :=
  let docs0 := match queryResult with
    | Except.ok ds => ds
    | Except.error _ => []
  let docs := if docs0.isEmpty then fallbackDocs now else docs0
  digestFromDocs docs language

/-! ## Helper lemmas -/

theorem ensureBullets3_length (bs : List String) : (ensureBullets3 bs).length = 3 := by
  unfold ensureBullets3
  by_cases h1 : bs.length > 3
  · simp [h1, List.length_take]
    omega
  · by_cases h2 : bs.length < 3
    · simp [h1, h2]
      omega
    · simp [h1, h2]
      omega

theorem digestItemOfDoc_bullets_le (d : Doc) :
    (digestItemOfDoc d).bullets.length ≤ 3 := by
  simp [digestItemOfDoc, List.length_take]

theorem sliceTitles_all_some (l : List (Option String)) (h : ∀ o ∈ l, o.isSome) :
    sliceTitles l = some (l.map fun o => (o.getD "").take 60) := by
  induction l with
  | nil => rfl
  | cons a t ih =>
    obtain ⟨x, rfl⟩ := Option.isSome_iff_exists.mp (h a (List.mem_cons_self a t))
    have ih2 := ih fun o ho => h o (List.mem_cons_of_mem _ ho)
    simp [sliceTitles, ih2]

theorem any_verified_eq (t : String) :
    (["breaking", "official", "gov"].any fun x => strIn x t) =
      (strIn "breaking" t || strIn "official" t || strIn "gov" t) := by
  cases hb : strIn "breaking" t <;> cases ho : strIn "official" t <;>
    cases hg : strIn "gov" t <;> simp [List.any_cons, List.any_nil, hb, ho, hg]

theorem any_rumour_eq (t : String) :
    (["rumour", "leak", "unconfirmed"].any fun x => strIn x t) =
      (strIn "rumour" t || strIn "leak" t || strIn "unconfirmed" t) := by
  cases hr : strIn "rumour" t <;> cases hl : strIn "leak" t <;>
    cases hu : strIn "unconfirmed" t <;> simp [List.any_cons, List.any_nil, hr, hl, hu]

/-! ## Claim theorems -/

/-- C2: for every article map, the fact classifier returns label
"Verified" with risk score 5 when the lower-cased title contains any of
"breaking"/"official"/"gov"; otherwise "Rumour" with 65 when it contains any
of "rumour"/"leak"/"unconfirmed"; otherwise "Unconfirmed" with 30. The
Verified rule wins over the Rumour rule because its check comes first. -/
theorem ai_fact_check_classification (a : Doc) :
    ((strIn "breaking" (lowerStr (pyOr a.title "")) ||
      strIn "official" (lowerStr (pyOr a.title "")) ||
      strIn "gov" (lowerStr (pyOr a.title ""))) = true →
      ai_fact_check a = { fact_status := "Verified", risk_score := 5 }) ∧
    ((strIn "breaking" (lowerStr (pyOr a.title "")) ||
      strIn "official" (lowerStr (pyOr a.title "")) ||
      strIn "gov" (lowerStr (pyOr a.title ""))) = false →
     (strIn "rumour" (lowerStr (pyOr a.title "")) ||
      strIn "leak" (lowerStr (pyOr a.title "")) ||
      strIn "unconfirmed" (lowerStr (pyOr a.title ""))) = true →
      ai_fact_check a = { fact_status := "Rumour", risk_score := 65 }) ∧
    ((strIn "breaking" (lowerStr (pyOr a.title "")) ||
      strIn "official" (lowerStr (pyOr a.title "")) ||
      strIn "gov" (lowerStr (pyOr a.title ""))) = false →
     (strIn "rumour" (lowerStr (pyOr a.title "")) ||
      strIn "leak" (lowerStr (pyOr a.title "")) ||
      strIn "unconfirmed" (lowerStr (pyOr a.title ""))) = false →
      ai_fact_check a = { fact_status := "Unconfirmed", risk_score := 30 }) := by
  refine ⟨fun h => ?_, fun h1 h2 => ?_, fun h1 h2 => ?_⟩
  · simp only [ai_fact_check, any_verified_eq, any_rumour_eq]
    simp [h]
  · simp only [ai_fact_check, any_verified_eq, any_rumour_eq]
    simp [h1, h2]
  · simp only [ai_fact_check, any_verified_eq, any_rumour_eq]
    simp [h1, h2]

/-- Witness for C2 at three concrete titles, one per branch; the first
title carries keywords of both sets and still classifies as Verified. -/
theorem ai_fact_check_classification_witness :
    ai_fact_check { title := some "BREAKING rumour leak" } =
      { fact_status := "Verified", risk_score := 5 } ∧
    ai_fact_check { title := some "big leak tonight" } =
      { fact_status := "Rumour", risk_score := 65 } ∧
    ai_fact_check { title := some "plain market news" } =
      { fact_status := "Unconfirmed", risk_score := 30 } :=
  ⟨(ai_fact_check_classification { title := some "BREAKING rumour leak" }).1 rfl,
   (ai_fact_check_classification { title := some "big leak tonight" }).2.1 rfl rfl,
   (ai_fact_check_classification { title := some "plain market news" }).2.2 rfl rfl⟩

/-- C9: the audio endpoint's `audio_url` is the same fixed constant for any
two requests, independent of the input text, and the handler always
succeeds (it is a total function). -/
theorem audio_url_constant :
    (∀ t1 l1 t2 l2 : String,
      (text_to_audio t1 l1).audio_url = (text_to_audio t2 l2).audio_url) ∧
    (∀ t l : String, (text_to_audio t l).audio_url =
      "data:audio/wav;base64,UGFrR1BULWF1ZGlvLXBsYWNlaG9sZGVy") :=
  ⟨fun _ _ _ _ => rfl, fun _ _ => by simp only [text_to_audio]; decide⟩

/-- C8: `title`, `source` and `url` of a composed ingest document equal the
original article's fields, feed normalization keeps all three unchanged,
and hence they are preserved through ingest followed by feed retrieval. -/
theorem roundtrip_title_source_url (now language : String) (art : Doc)
    (hart : art ∈ sample_articles now) :
    (composeDoc art language).title = art.title ∧
    (composeDoc art language).source = art.source ∧
    (composeDoc art language).url = art.url ∧
    (∀ d : Doc, (normalizeFeedDoc d).title = d.title ∧
      (normalizeFeedDoc d).source = d.source ∧
      (normalizeFeedDoc d).url = d.url) ∧
    (normalizeFeedDoc (composeDoc art language)).title = art.title ∧
    (normalizeFeedDoc (composeDoc art language)).source = art.source ∧
    (normalizeFeedDoc (composeDoc art language)).url = art.url :=
  ⟨rfl, rfl, rfl, fun _ => ⟨rfl, rfl, rfl⟩, rfl, rfl, rfl⟩

/-- Witness for C8 at the first canned article. -/
theorem roundtrip_title_source_url_witness :
    (normalizeFeedDoc (composeDoc (sample_article_1 "2024-01-01") "en")).title =
      (sample_article_1 "2024-01-01").title :=
  (roundtrip_title_source_url "2024-01-01" "en" (sample_article_1 "2024-01-01")
    (List.mem_cons_self _ _)).2.2.2.2.1

/-- C3: the ingestion handler ignores the `sources` payload entirely and
always runs over the fixed 3-article canned batch; every composed document
carries urgency "important"; and when every persist call succeeds the
response is inserted count 3 with exactly the 3 returned identifiers (the
store then holds exactly the 3 composed documents). -/
theorem ingest_fixed_batch_three_inserts
    (create : Nat → Doc → Except String String)
    (sources1 sources2 : List String) (language now : String) (i1 i2 i3 : String)
    (h1 : create 0 (composeDoc (sample_article_1 now) language) = Except.ok i1)
    (h2 : create 1 (composeDoc (sample_article_2 now) language) = Except.ok i2)
    (h3 : create 2 (composeDoc (sample_article_3 now) language) = Except.ok i3) :
    ingest_news create sources1 language now = ingest_news create sources2 language now ∧
    (∀ art lang, (composeDoc art lang).urgency = some "important") ∧
    (ingest_news create sources1 language now).1 = Except.ok (3, [i1, i2, i3]) ∧
    (ingest_news create sources1 language now).2 =
      (sample_articles now).map fun art => composeDoc art language := by
  refine ⟨rfl, fun art lang => rfl, ?_, ?_⟩ <;>
    simp [ingest_news, ingestLoop, sample_articles, h1, h2, h3]

/-- Witness for C3: an always-succeeding store inserts 3 documents. -/
theorem ingest_fixed_batch_three_inserts_witness :
    (ingest_news (fun _ _ => Except.ok "newid") [] "en" "2024-01-01T00:00:00").1 =
      Except.ok (3, ["newid", "newid", "newid"]) :=
  (ingest_fixed_batch_three_inserts (fun _ _ => Except.ok "newid") [] ["dawn"]
    "en" "2024-01-01T00:00:00" "newid" "newid" "newid" rfl rfl rfl).2.2.1

/-- C5: if persisting the k-th composed document fails, the request fails
with a 500 error embedding the underlying error text, the store keeps
exactly the documents composed from the articles before the k-th (no
rollback), and the remaining articles are never processed (the outcome does
not depend on the store behavior beyond call k). -/
theorem ingest_failure_aborts_batch
    (create : Nat → Doc → Except String String) (k : Nat) (hk : k < 3)
    (ids : Nat → String) (e : String)
    (sources : List String) (language now : String)
    (hsucc : ∀ j, j < k →
      create j (composeDoc ((sample_articles now).getD j {}) language) =
        Except.ok (ids j))
    (hfail : create k (composeDoc ((sample_articles now).getD k {}) language) =
      Except.error e) :
    (ingest_news create sources language now).1 =
      Except.error { status_code := 500, detail := "DB error: " ++ e } ∧
    (ingest_news create sources language now).2 =
      ((sample_articles now).map fun art => composeDoc art language).take k ∧
    (∀ create2 : Nat → Doc → Except String String,
      (∀ j, j ≤ k → ∀ d, create2 j d = create j d) →
      ingest_news create2 sources language now =
        ingest_news create sources language now) := by
  interval_cases k
  · simp only [sample_articles, List.getD_cons_zero] at hfail
    refine ⟨?_, ?_, ?_⟩
    · simp [ingest_news, ingestLoop, sample_articles, hfail]
    · simp [ingest_news, ingestLoop, sample_articles, hfail]
    · intro c2 hc2
      have f0 := hc2 0 (by omega) (composeDoc (sample_article_1 now) language)
      simp [ingest_news, ingestLoop, sample_articles, f0, hfail]
  · have h0 := hsucc 0 (by omega)
    simp only [sample_articles, List.getD_cons_zero, List.getD_cons_succ] at h0 hfail
    refine ⟨?_, ?_, ?_⟩
    · simp [ingest_news, ingestLoop, sample_articles, h0, hfail]
    · simp [ingest_news, ingestLoop, sample_articles, h0, hfail]
    · intro c2 hc2
      have f0 := hc2 0 (by omega) (composeDoc (sample_article_1 now) language)
      have f1 := hc2 1 (by omega) (composeDoc (sample_article_2 now) language)
      simp [ingest_news, ingestLoop, sample_articles, f0, f1, h0, hfail]
  · have h0 := hsucc 0 (by omega)
    have h1 := hsucc 1 (by omega)
    simp only [sample_articles, List.getD_cons_zero, List.getD_cons_succ] at h0 h1 hfail
    refine ⟨?_, ?_, ?_⟩
    · simp [ingest_news, ingestLoop, sample_articles, h0, h1, hfail]
    · simp [ingest_news, ingestLoop, sample_articles, h0, h1, hfail]
    · intro c2 hc2
      have f0 := hc2 0 (by omega) (composeDoc (sample_article_1 now) language)
      have f1 := hc2 1 (by omega) (composeDoc (sample_article_2 now) language)
      have f2 := hc2 2 (by omega) (composeDoc (sample_article_3 now) language)
      simp [ingest_news, ingestLoop, sample_articles, f0, f1, f2, h0, h1, hfail]

/-- Witness for C5: the store accepts the first document and fails on the
second; the request errors with the embedded message. -/
theorem ingest_failure_aborts_batch_witness :
    (ingest_news (fun k _ => if k = 0 then Except.ok "a" else Except.error "boom")
      [] "en" "2024-01-01").1 =
      Except.error { status_code := 500, detail := "DB error: " ++ "boom" } :=
  (ingest_failure_aborts_batch
    (fun k _ => if k = 0 then Except.ok "a" else Except.error "boom")
    1 (by omega) (fun _ => "a") "boom" [] "en" "2024-01-01"
    (by intro j hj; interval_cases j; rfl) rfl).1

/-- C4: when the digest store query raises an error or returns zero
documents, the response is built from the 5 canned fallback items, each
with fact status "Unconfirmed" and risk score 20, and the 60-second
summary contains the fixed Urdu trailing sentence exactly when the
language is "ur". -/
theorem digest_fallback_five_items (e language now : String)
    (hlang : language = "en" ∨ language = "ur") :
    morning_digest (Except.error e) language now =
      morning_digest (Except.ok []) language now ∧
    (morning_digest (Except.ok []) language now).map (fun r => r.items.length) =
      some 5 ∧
    (morning_digest (Except.ok []) language now).map
      (fun r => r.items.all fun it =>
        it.fact_status == "Unconfirmed" && it.risk_score == 20) = some true ∧
    (morning_digest (Except.ok []) language now).map
      (fun r => strIn urduTrailer r.summary_60s) = some (language == "ur") := by
  rcases hlang with h | h <;> subst h <;> exact ⟨rfl, rfl, rfl, rfl⟩

/-- Witness for C4 in Urdu: the summary carries the Urdu trailer. -/
theorem digest_fallback_five_items_witness :
    (morning_digest (Except.ok []) "ur" "2024-01-01").map
      (fun r => strIn urduTrailer r.summary_60s) = some ("ur" == "ur") :=
  (digest_fallback_five_items "oops" "ur" "2024-01-01" (Or.inr rfl)).2.2.2

/-- C6: for a successful non-empty digest query (each document carrying a
title, up to the limit of 20), the headline list is the first 10 titles in
query order, the per-item list covers exactly the first 10 documents, and
the 60-second summary is the headlines truncated to 60 characters, joined
by single spaces, with the fixed Urdu trailer appended exactly when the
language is "ur". -/
theorem digest_success_shape (docs : List Doc) (language now : String)
    (hne : docs ≠ []) (hlen : docs.length ≤ 20)
    (htitle : ∀ d ∈ docs, d.title.isSome)
    (hlang : language = "en" ∨ language = "ur") :
    ∃ r, morning_digest (Except.ok docs) language now = some r ∧
      r.headlines = (docs.map Doc.title).take 10 ∧
      r.items = (docs.take 10).map digestItemOfDoc ∧
      r.items.length = min docs.length 10 ∧
      r.summary_60s =
        String.intercalate " "
          (((docs.map Doc.title).take 10).map fun o => (o.getD "").take 60) ++
        (if language = "ur" then urduTrailer else "") := by
  have hde : docs.isEmpty = false := by
    cases docs with
    | nil => exact absurd rfl hne
    | cons a t => rfl
  have hts : ∀ o ∈ (docs.map Doc.title).take 10, o.isSome := by
    intro o ho
    obtain ⟨d, hd, rfl⟩ := List.mem_map.mp (List.take_subset _ _ ho)
    exact htitle d hd
  have hmm := sliceTitles_all_some _ hts
  simp only [morning_digest, digestFromDocs, hde, Bool.false_eq_true, if_false, hmm]
  refine ⟨_, rfl, rfl, rfl, ?_, ?_⟩
  · simp only [List.length_map, List.length_take]
    omega
  · rcases hlang with h | h <;> subst h <;> simp

/-- Witness for C6 at a concrete one-document query result. -/
theorem digest_success_shape_witness :
    (morning_digest
      (Except.ok [{ title := some "Example headline", bullets := some ["a"] }])
      "ur" "2024-01-01").isSome = true := by
  obtain ⟨r, hr, -, -, -, -⟩ :=
    digest_success_shape
      [{ title := some "Example headline", bullets := some ["a"] }]
      "ur" "2024-01-01" (by simp) (by simp)
      (by intro d hd; rw [List.mem_singleton] at hd; subst hd; rfl)
      (Or.inr rfl)
  rw [hr]
  rfl

/-- C10: the digest headline/summary computation is total on queried
document lists in which every document carries a title string, and this
precondition is necessary: with a single stored document whose `title`
key is absent, the slice `h[:60]` is undefined and the digest request
fails (no fallback is produced). -/
theorem digest_title_slice_totality :
    (∀ (docs : List Doc) (language now : String),
      (∀ d ∈ docs, d.title.isSome) →
      (morning_digest (Except.ok docs) language now).isSome = true) ∧
    morning_digest (Except.ok [{ title := none }]) "en" "t0" = none := by
  constructor
  · intro docs language now htitle
    cases docs with
    | nil => rfl
    | cons a t =>
      have hde : (a :: t).isEmpty = false := rfl
      have hts : ∀ o ∈ ((a :: t).map Doc.title).take 10, o.isSome := by
        intro o ho
        obtain ⟨d, hdm, rfl⟩ := List.mem_map.mp (List.take_subset _ _ ho)
        exact htitle d hdm
      have hmm := sliceTitles_all_some _ hts
      simp only [morning_digest, digestFromDocs, hde, Bool.false_eq_true, if_false, hmm]
      rfl
  · rfl

/-- Witness for C10 at a concrete titled document. -/
theorem digest_title_slice_totality_witness :
    (morning_digest (Except.ok [{ title := some "A headline" }])
      "en" "t1").isSome = true :=
  digest_title_slice_totality.1 [{ title := some "A headline" }] "en" "t1"
    (by intro d hd; rw [List.mem_singleton] at hd; subst hd; rfl)

/-- C1 counterexample: a stored document with a single bullet passes
through the digest endpoint with its bullets list unpadded (length 1, not
3), so the bullets-length-3 invariant fails for digest items. -/
theorem digest_item_bullets_not_padded :
    ((morning_digest
        (Except.ok [{ title := some "short", bullets := some ["only one"] }])
        "en" "t0").map
      fun r => r.items.all fun it => it.bullets.length == 3) = some false := rfl

/-- Items of any digest response come from truncation by 10 of some
effective document list. -/
theorem digestFromDocs_items (docs : List Doc) (language : String)
    (r : DigestResponse) (h : digestFromDocs docs language = some r) :
    r.items = (docs.take 10).map digestItemOfDoc := by
  simp only [digestFromDocs] at h
  cases hs : sliceTitles ((docs.map Doc.title).take 10) with
  | none =>
    rw [hs] at h
    exact Option.noConfusion h
  | some hsl =>
    rw [hs] at h
    cases h
    rfl

/-- C1 (amended): every item returned by the feed endpoint has a bullets
list of length exactly 3 (padded with empty strings or truncated), while
every item returned by the digest endpoint has a bullets list of length at
most 3 (over-long lists are truncated, but short lists are not padded). -/
theorem bullets_length_feed_exact_digest_at_most :
    (∀ (store : FeedQuery → Except String (List Doc)) (p : PersonalizeRequest)
      (r : FeedResponse), get_personalized_feed store p = Except.ok r →
      ∀ it ∈ r.items, it.bullets.length = 3) ∧
    (∀ (q : Except String (List Doc)) (language now : String)
      (r : DigestResponse), morning_digest q language now = some r →
      ∀ it ∈ r.items, it.bullets.length ≤ 3) := by
  constructor
  · intro store p r h it hit
    unfold get_personalized_feed at h
    cases hs : store (buildFeedQuery p) with
    | error e =>
      rw [hs] at h
      exact Except.noConfusion h
    | ok docs =>
      rw [hs] at h
      cases h
      obtain ⟨d, hd, rfl⟩ := List.mem_map.mp hit
      exact ensureBullets3_length _
  · intro q language now r h it hit
    unfold morning_digest at h
    rw [digestFromDocs_items _ _ _ h] at hit
    obtain ⟨d, hd, rfl⟩ := List.mem_map.mp hit
    exact digestItemOfDoc_bullets_le d

/-- Witness for C1 (amended): a stored two-bullet document is padded to 3
bullets by the feed endpoint. -/
theorem bullets_length_feed_exact_digest_at_most_witness :
    (normalizeFeedDoc { bullets := some ["a", "b"] }).bullets.length = 3 :=
  bullets_length_feed_exact_digest_at_most.1
    (fun _ => Except.ok [{ bullets := some ["a", "b"] }]) {}
    { count := 1, items := [normalizeFeedDoc { bullets := some ["a", "b"] }] }
    rfl (normalizeFeedDoc { bullets := some ["a", "b"] })
    (List.mem_singleton.mpr rfl)

/-- C7 counterexample: for an Urdu request on an article whose `source` key
is present but empty and whose `title` is the empty string, bullet 2 is the
default "نامعلوم" even though the source is not absent, and bullet 1 shows
the placeholder "Untitled" rather than the truncated (empty) title. -/
theorem summarize_fallbacks_on_empty_fields :
    (({ source := some "", title := some "", published_at := some "2024" } : Doc).source
        ≠ none) ∧
    (ai_clean_and_summarize
        { source := some "", title := some "", published_at := some "2024" }
        "ur").bullets =
      ["اہم نقطہ: Untitled", "سورس: نامعلوم", "وقت: 2024"] ∧
    ("سورس: نامعلوم" : String) ≠ "سورس: " ++ "" ∧
    ("اہم نقطہ: Untitled" : String) ≠ "اہم نقطہ: " ++ ("".take 70) := by
  refine ⟨fun h => Option.noConfusion h, rfl, ?_, ?_⟩ <;> decide

/-- C7 (amended): for every article map and each language in {en, ur}, the
summarizer always succeeds with one of exactly two fixed impact sentences
selected by language, and three bullets: bullet 1 is the language-specific
"Key point" label followed by the title truncated to 70 characters, where
an absent or empty title is replaced by "Untitled"; bullet 2 echoes the
source, defaulting to "unknown" when the source key is absent (English)
and to "نامعلوم" when the source is absent or empty (Urdu); bullet 3
echoes the publication timestamp, which the Urdu branch renders through
str() (an absent timestamp shows as "None"). -/
theorem ai_clean_and_summarize_spec (a : Doc) (language : String) :
    (language = "en" →
      (ai_clean_and_summarize a language).bullets = [
        "Key point: " ++ (match a.title with
          | some t => if t = "" then "Untitled" else t
          | none => "Untitled").take 70,
        "Source: " ++ (match a.source with
          | some s => s
          | none => "unknown"),
        "Time: " ++ (match a.published_at with
          | some p => p
          | none => "") ] ∧
      (ai_clean_and_summarize a language).impact =
        "Potential impact on citizens and businesses to be monitored.") ∧
    (language = "ur" →
      (ai_clean_and_summarize a language).bullets = [
        "اہم نقطہ: " ++ (match a.title with
          | some t => if t = "" then "Untitled" else t
          | none => "Untitled").take 70,
        "سورس: " ++ (match a.source with
          | some s => if s = "" then "نامعلوم" else s
          | none => "نامعلوم"),
        "وقت: " ++ (match a.published_at with
          | some p => p
          | none => "None") ] ∧
      (ai_clean_and_summarize a language).impact =
        "شہریوں اور کاروبار پر ممکنہ اثرات کے لئے نظر رکھیں۔") := by
  constructor
  · intro h
    subst h
    rcases ht : a.title with _ | t <;> rcases hs2 : a.source with _ | s <;>
      rcases hp : a.published_at with _ | p <;>
      simp [ai_clean_and_summarize, pyOr, pyStr, ht, hs2, hp]
  · intro h
    subst h
    rcases ht : a.title with _ | t <;> rcases hs2 : a.source with _ | s <;>
      rcases hp : a.published_at with _ | p <;>
      simp [ai_clean_and_summarize, pyOr, pyStr, ht, hs2, hp] <;>
      split_ifs <;> simp_all

/-- Witness for C7 at a concrete English article. -/
theorem ai_clean_and_summarize_spec_witness :
    (ai_clean_and_summarize
      { title := some "Example title", source := some "Dawn",
        published_at := some "2024-01-01" } "en").impact =
      "Potential impact on citizens and businesses to be monitored." :=
  ((ai_clean_and_summarize_spec
    { title := some "Example title", source := some "Dawn",
      published_at := some "2024-01-01" } "en").1 rfl).2
